import Mathlib

/-!
Verification of the `rwui` button widget (`src/button.rs`): the widget
event state machine `Button::consume_event`, the animation-driving frame
update `Button::update`, and the geometry setters.  Numeric values
(`f32` coordinates and alpha) are embedded as exact rationals; points and
vectors are pairs of rationals.  The interpolation engine `Animated<V>`
comes from the external crate `rwcommon` and is modelled from the spec.
Callbacks are embedded as opaque identifiers stored in the four optional
slots; invoking a callback is recorded by emitting its identifier.
-/

namespace Rwui

/-- Modelled from the spec: the `Animated<V>` interpolation engine of the
external crate `rwcommon::animation` (spec section 4.1).  Holds the value
at the last target assignment (`start`), the current value, the target,
the fixed duration, and the elapsed time since the last target
assignment. -/
structure Animated (V : Type) where
  start : V
  current : V
  target : V
  duration : ℚ
  elapsed : ℚ
deriving Repr, DecidableEq

namespace Animated

variable {V : Type} [AddCommGroup V] [Module ℚ V] [DecidableEq V]

/-- Modelled from the spec: `Animated::new(initial, duration)` —
current = target = initial. -/
def new (initial : V) (duration : ℚ) : Animated V :=
  { start := initial, current := initial, target := initial
    duration := duration, elapsed := 0 }

/-- Modelled from the spec: `set_target` updates the target, does not
touch `current`, and restarts interpolation from wherever `current`
presently sits, to complete within `duration` of this assignment. -/
def set_target (a : Animated V) (new_target : V) : Animated V :=
  { a with start := a.current, target := new_target, elapsed := 0 }

/-- Modelled from the spec: `complete()` is true iff current equals
target. -/
def complete (a : Animated V) : Bool :=
  a.current = a.target

/-- Modelled from the spec: `update(elapsed)` advances `current` toward
`target` by linear interpolation from the value at target-set time, with
fraction `clamp(elapsed_since_target_set / duration, 0, 1)`; duration
zero or accumulated elapsed ≥ duration snaps to the target; no-op when
already complete. -/
def update (a : Animated V) (elapsed : ℚ) : Animated V :=
  if a.complete then a
  else
    let e := a.elapsed + elapsed
    let fraction : ℚ :=
      if a.duration ≤ 0 ∨ a.duration ≤ e then 1
      else if e ≤ 0 then 0
      else e / a.duration
    { a with elapsed := e, current := a.start + fraction • (a.target - a.start) }

end Animated

/-- Point and vector components (`Point2<f32>` / `Vector2<f32>`) as pairs
of exact rationals. -/
abbrev Vec2 : Type := ℚ × ℚ

/-- Modelled from the spec: the external rendering primitive (`rwgfx`
sprite) as the record of the values pushed to it via `set_position`,
`set_size`, `set_overlay_alpha` and `set_z_index` (spec section 6). -/
structure Sprite where
  position : Vec2
  size : Vec2
  overlay_alpha : ℚ
  z_index : ℚ
deriving Repr, DecidableEq

/-- Embedding of `winit::event::ElementState`. -/
inductive ElementState where
  | Pressed
  | Released
deriving Repr, DecidableEq

/-- Embedding of `winit::event::MouseButton` (the source only distinguishes `Left`). -/
inductive MouseButton where
  | Left
  | Right
  | Middle
  | Other (id : Nat)
deriving Repr, DecidableEq

/-- The `winit::event::WindowEvent` variants read by
`Button::consume_event`; every other variant is collapsed into
`OtherEvent`. -/
inductive WindowEvent where
  | CursorMoved (position : Vec2)
  | MouseInput (state : ElementState) (button : MouseButton)
  | OtherEvent
deriving Repr, DecidableEq

/-- User callbacks are function pointers `fn(&mut Button<T>, &mut T)`;
the embedding identifies each stored callback by an opaque identifier and
records an invocation by emitting that identifier. -/
abbrev Callback : Type := Nat

/-- The `Button<T>` widget state (`src/button.rs`).  The `text` label
renderer is inert for all claims and is omitted; the four callback slots
hold opaque identifiers. -/
structure Button where
  position : Animated Vec2
  size : Animated Vec2
  z_index : ℚ
  hovered : Bool
  pressed : Bool
  back_colour : ℚ × ℚ × ℚ × ℚ
  overlay_alpha : Animated ℚ
  on_press : Option Callback
  on_release : Option Callback
  on_enter : Option Callback
  on_exit : Option Callback
  label : Option String
  sprite : Sprite
deriving Repr, DecidableEq

namespace Button

/-- Outcome of `Button::consume_event`: the updated widget, the returned
`event_consumed` flag, and the identifiers of the callbacks invoked (in
order).  Callbacks may not mutate the widget in this model. -/
structure EventOutcome where
  button : Button
  consumed : Bool
  fired : List Callback
deriving Repr, DecidableEq

/-- Translation of `Button::consume_event` (src/button.rs lines 71-138), translated
clause by clause: cursor-move hit-testing with inclusive bounds on all
four edges, hover enter/exit transitions, and left-button press/release
transitions.  The press-begin branch invokes the callback stored in
`on_release` and the press-end branch the one stored in `on_press`,
exactly as the source does. -/
def consume_event (b : Button) (event : WindowEvent) : EventOutcome :=
  match event with
  | WindowEvent.CursorMoved position =>
    let current_button_position := b.position.current
    let current_button_size := b.size.current
    let right_coord := current_button_position.1 + current_button_size.1
    let down_coord := current_button_position.2 + current_button_size.2
    if current_button_position.1 ≤ position.1 ∧ position.1 ≤ right_coord
        ∧ current_button_position.2 ≤ position.2 ∧ position.2 ≤ down_coord then
      if !b.hovered then
        { button :=
            { b with
              hovered := true
              overlay_alpha := b.overlay_alpha.set_target (b.overlay_alpha.target + 1/10) }
          consumed := true
          fired := b.on_enter.toList }
      else
        { button := b, consumed := false, fired := [] }
    else
      if b.hovered then
        { button :=
            { b with
              hovered := false
              overlay_alpha := b.overlay_alpha.set_target (b.overlay_alpha.target - 1/10) }
          consumed := true
          fired := b.on_exit.toList }
      else
        { button := b, consumed := false, fired := [] }
  | WindowEvent.MouseInput state button =>
    if button = MouseButton.Left then
      if b.pressed then
        if state = ElementState.Released then
          { button :=
              { b with
                pressed := false
                overlay_alpha := b.overlay_alpha.set_target (b.overlay_alpha.target - 1/10) }
            consumed := true
            fired := b.on_press.toList }
        else
          { button := b, consumed := false, fired := [] }
      else
        if b.hovered ∧ state = ElementState.Pressed then
          { button :=
              { b with
                pressed := true
                overlay_alpha := b.overlay_alpha.set_target (b.overlay_alpha.target + 1/10) }
            consumed := true
            fired := b.on_release.toList }
        else
          { button := b, consumed := false, fired := [] }
    else
      { button := b, consumed := false, fired := [] }
  | WindowEvent.OtherEvent =>
    { button := b, consumed := false, fired := [] }

/-- Translation of `Button::set_position` (src/button.rs lines 200-202). -/
def set_position (b : Button) (position : Vec2) : Button :=
  { b with position := b.position.set_target position }

/-- Translation of `Button::set_position_offset` (src/button.rs lines 205-207): sets the
position relative to the target position. -/
def set_position_offset (b : Button) (offset : Vec2) : Button :=
  b.set_position (b.position.target + offset)

/-- Translation of `Button::set_size` (src/button.rs lines 210-212). -/
def set_size (b : Button) (size : Vec2) : Button :=
  { b with size := b.size.set_target size }

/-- Translation of `Button::set_size_offset` (src/button.rs lines 215-217): sets the
size relative to the target size. -/
def set_size_offset (b : Button) (offset : Vec2) : Button :=
  b.set_size (b.size.target + offset)

/-- Translation of `Button::set_z_index` (src/button.rs lines 220-222): forwards the new
z-index to the sprite only. -/
def set_z_index (b : Button) (z_index : ℚ) : Button :=
  { b with sprite := { b.sprite with z_index := z_index } }

/-- Translation of `Button::update` (src/button.rs lines 225-243): for each of the three
animated values that is not complete, advance it and push its current
value to the sprite.  The returned list records the callbacks invoked
(the body of `update` invokes none). -/
def update (b : Button) (elapsed : ℚ) : Button × List Callback :=
  let b :=
    if !b.position.complete then
      let position := b.position.update elapsed
      { b with
        position := position
        sprite := { b.sprite with position := position.current } }
    else b
  let b :=
    if !b.size.complete then
      let size := b.size.update elapsed
      { b with
        size := size
        sprite := { b.sprite with size := size.current } }
    else b
  let b :=
    if !b.overlay_alpha.complete then
      let overlay_alpha := b.overlay_alpha.update elapsed
      { b with
        overlay_alpha := overlay_alpha
        sprite := { b.sprite with overlay_alpha := overlay_alpha.current } }
    else b
  (b, [])

/-- The inline hit-test of `consume_event` (src/button.rs lines 78-85):
the cursor is on the button iff it lies within the rectangle spanned by
the current animated position and size, bounds inclusive on all four
edges. -/
def cursor_on_button (b : Button) (p : Vec2) : Prop :=
  b.position.current.1 ≤ p.1 ∧ p.1 ≤ b.position.current.1 + b.size.current.1
    ∧ b.position.current.2 ≤ p.2 ∧ p.2 ≤ b.position.current.2 + b.size.current.2

instance (b : Button) (p : Vec2) : Decidable (b.cursor_on_button p) := by
  unfold Button.cursor_on_button
  infer_instance

end Button

/-- Collection of parameters for button creation (`ButtonDescriptor<T>`,
src/button.rs lines 11-32). -/
structure ButtonDescriptor where
  position : Vec2
  size : Vec2
  z_index : ℚ
  back_colour : ℚ × ℚ × ℚ × ℚ
  label : Option String
  on_press : Option Callback
  on_release : Option Callback
  on_enter : Option Callback
  on_exit : Option Callback
deriving Repr, DecidableEq

/-- Translation of `Button::new` (src/button.rs lines 151-197): position and size
animate over 200 ms, the overlay alpha over 100 ms (embedded in seconds
as 1/5 and 1/10); hovered and pressed start false, overlay alpha at 0.
The sprite is created with the descriptor's geometry, z-index and an
initial overlay of 0; the texture and text renderer are dropped from the
model. -/
def Button.new (descriptor : ButtonDescriptor) : Button :=
  { position := Animated.new descriptor.position (1/5)
    size := Animated.new descriptor.size (1/5)
    z_index := descriptor.z_index
    hovered := false
    pressed := false
    back_colour := descriptor.back_colour
    overlay_alpha := Animated.new 0 (1/10)
    on_press := descriptor.on_press
    on_release := descriptor.on_release
    on_enter := descriptor.on_enter
    on_exit := descriptor.on_exit
    label := descriptor.label
    sprite :=
      { position := descriptor.position
        size := descriptor.size
        overlay_alpha := 0
        z_index := descriptor.z_index } }

/-- A concrete widget at position (0, 0) with size (100, 50), all four
callback slots occupied by distinct identifiers, used to instantiate the
theorems at concrete inputs (the scenario of spec section 8). -/
def sampleButton : Button :=
  Button.new
    { position := (0, 0)
      size := (100, 50)
      z_index := 0
      back_colour := (1, 1, 1, 1)
      label := none
      on_press := some 1
      on_release := some 2
      on_enter := some 3
      on_exit := some 4 }

/-- The operation `Animated::update` never changes the target. -/
theorem Animated.update_target {V : Type} [AddCommGroup V] [Module ℚ V] [DecidableEq V]
    (a : Animated V) (elapsed : ℚ) : (a.update elapsed).target = a.target := by
  unfold Animated.update
  split <;> rfl

/-- Branch characterisation: a cursor move landing on the widget while it
is not hovered performs the hover-enter transition. -/
theorem consume_event_moved_enter (b : Button) (p : Vec2)
    (h : b.hovered = false) (hin : b.cursor_on_button p) :
    b.consume_event (WindowEvent.CursorMoved p) =
      { button :=
          { b with
            hovered := true
            overlay_alpha := b.overlay_alpha.set_target (b.overlay_alpha.target + 1/10) }
        consumed := true
        fired := b.on_enter.toList } := by
  rw [Button.cursor_on_button] at hin
  simp [Button.consume_event, h, hin]

/-- Branch characterisation: a cursor move landing outside the widget
while it is hovered performs the hover-exit transition. -/
theorem consume_event_moved_exit (b : Button) (p : Vec2)
    (h : b.hovered = true) (hout : ¬ b.cursor_on_button p) :
    b.consume_event (WindowEvent.CursorMoved p) =
      { button :=
          { b with
            hovered := false
            overlay_alpha := b.overlay_alpha.set_target (b.overlay_alpha.target - 1/10) }
        consumed := true
        fired := b.on_exit.toList } := by
  rw [Button.cursor_on_button] at hout
  simp [Button.consume_event, h, hout]

/-- Branch characterisation: a cursor move landing on the widget while it
is already hovered is a no-op and is not consumed. -/
theorem consume_event_moved_inside_hovered (b : Button) (p : Vec2)
    (h : b.hovered = true) (hin : b.cursor_on_button p) :
    b.consume_event (WindowEvent.CursorMoved p) =
      { button := b, consumed := false, fired := [] } := by
  rw [Button.cursor_on_button] at hin
  simp [Button.consume_event, h, hin]

/-- Branch characterisation: a cursor move landing outside the widget
while it is not hovered is a no-op and is not consumed. -/
theorem consume_event_moved_outside_unhovered (b : Button) (p : Vec2)
    (h : b.hovered = false) (hout : ¬ b.cursor_on_button p) :
    b.consume_event (WindowEvent.CursorMoved p) =
      { button := b, consumed := false, fired := [] } := by
  rw [Button.cursor_on_button] at hout
  simp [Button.consume_event, h, hout]

/-- Branch characterisation: a left press while hovered and not pressed
performs the press-begin transition (and fires the `on_release` slot). -/
theorem consume_event_press_begin (b : Button)
    (h1 : b.pressed = false) (h2 : b.hovered = true) :
    b.consume_event (WindowEvent.MouseInput ElementState.Pressed MouseButton.Left) =
      { button :=
          { b with
            pressed := true
            overlay_alpha := b.overlay_alpha.set_target (b.overlay_alpha.target + 1/10) }
        consumed := true
        fired := b.on_release.toList } := by
  simp [Button.consume_event, h1, h2]

/-- Branch characterisation: a left release while pressed performs the
press-end transition (and fires the `on_press` slot). -/
theorem consume_event_press_end (b : Button) (h : b.pressed = true) :
    b.consume_event (WindowEvent.MouseInput ElementState.Released MouseButton.Left) =
      { button :=
          { b with
            pressed := false
            overlay_alpha := b.overlay_alpha.set_target (b.overlay_alpha.target - 1/10) }
        consumed := true
        fired := b.on_press.toList } := by
  simp [Button.consume_event, h]

/-- C2: `consume_event` returns true exactly when it mutated the
interaction state — the hovered flag, the pressed flag, or the overlay
alpha target; equivalently, on a return of false those three are exactly
as they were before the call (callbacks in this model do not mutate the
widget). -/
theorem consume_event_consumed_iff_state_mutated (b : Button) (e : WindowEvent) :
    (b.consume_event e).consumed = true ↔
      ((b.consume_event e).button.hovered ≠ b.hovered
        ∨ (b.consume_event e).button.pressed ≠ b.pressed
        ∨ (b.consume_event e).button.overlay_alpha.target ≠ b.overlay_alpha.target) := by
  cases e with
  | CursorMoved p =>
    simp only [Button.consume_event]
    split_ifs with h1 h2 h3 <;> simp_all
  | MouseInput s btn =>
    simp only [Button.consume_event]
    split_ifs with h1 h2 h3 h4 <;> simp_all
  | OtherEvent =>
    simp [Button.consume_event]

/-- C5: while not hovered, a cursor-move event sets `hovered` (and is
consumed) exactly when the cursor lies within the rectangle with
inclusive bounds on all four edges, so a cursor exactly on an edge
counts as inside. -/
theorem hit_test_boundary_inclusive (b : Button) (p : Vec2) (h : b.hovered = false) :
    ((b.consume_event (WindowEvent.CursorMoved p)).button.hovered = true
        ↔ (b.position.current.1 ≤ p.1
            ∧ p.1 ≤ b.position.current.1 + b.size.current.1
            ∧ b.position.current.2 ≤ p.2
            ∧ p.2 ≤ b.position.current.2 + b.size.current.2))
      ∧ ((b.consume_event (WindowEvent.CursorMoved p)).consumed = true
        ↔ (b.position.current.1 ≤ p.1
            ∧ p.1 ≤ b.position.current.1 + b.size.current.1
            ∧ b.position.current.2 ≤ p.2
            ∧ p.2 ≤ b.position.current.2 + b.size.current.2)) := by
  by_cases hin : b.cursor_on_button p
  · rw [consume_event_moved_enter b p h hin]
    rw [Button.cursor_on_button] at hin
    simp [hin]
  · rw [consume_event_moved_outside_unhovered b p h hin]
    rw [Button.cursor_on_button] at hin
    simp [h, hin]

/-- C5 witness: the cursor exactly on the bottom-right corner (100, 50)
of the sample widget counts as inside: the move is consumed and sets
`hovered`. -/
theorem hit_test_boundary_inclusive_witness :
    (Button.consume_event sampleButton (WindowEvent.CursorMoved (100, 50))).button.hovered
        = true
      ∧ (Button.consume_event sampleButton (WindowEvent.CursorMoved (100, 50))).consumed
        = true := by
  have h := hit_test_boundary_inclusive sampleButton (100, 50) rfl
  have hb : sampleButton.position.current.1 ≤ ((100 : ℚ), (50 : ℚ)).1
      ∧ ((100 : ℚ), (50 : ℚ)).1 ≤ sampleButton.position.current.1 + sampleButton.size.current.1
      ∧ sampleButton.position.current.2 ≤ ((100 : ℚ), (50 : ℚ)).2
      ∧ ((100 : ℚ), (50 : ℚ)).2 ≤ sampleButton.position.current.2 + sampleButton.size.current.2 := by
    norm_num [sampleButton, Button.new, Animated.new]
  exact ⟨h.1.mpr hb, h.2.mpr hb⟩

/-- C1: on the press-begin transition (left button pressed while
hovered = true and pressed = false) `consume_event` invokes the callback
stored in the `on_release` slot, and on the press-end transition (left
button released while pressed = true) it invokes the callback stored in
the `on_press` slot — each press transition fires the callback with the
opposite name. -/
theorem consume_event_swaps_press_callbacks (b c : Button)
    (hb1 : b.hovered = true) (hb2 : b.pressed = false) (hc : c.pressed = true) :
    (b.consume_event (WindowEvent.MouseInput ElementState.Pressed MouseButton.Left)).fired
        = b.on_release.toList
      ∧ (c.consume_event (WindowEvent.MouseInput ElementState.Released MouseButton.Left)).fired
        = c.on_press.toList := by
  constructor <;> simp [Button.consume_event, hb1, hb2, hc]

/-- C1 witness: the sample widget while hovered fires callback 2 (the
`on_release` slot) on press-begin, and while pressed fires callback 1
(the `on_press` slot) on press-end. -/
theorem consume_event_swaps_press_callbacks_witness :
    (Button.consume_event { sampleButton with hovered := true }
        (WindowEvent.MouseInput ElementState.Pressed MouseButton.Left)).fired = [2]
      ∧ (Button.consume_event { sampleButton with pressed := true }
        (WindowEvent.MouseInput ElementState.Released MouseButton.Left)).fired = [1] := by
  have h := consume_event_swaps_press_callbacks
    { sampleButton with hovered := true } { sampleButton with pressed := true }
    rfl rfl rfl
  simpa [sampleButton, Button.new] using h

/-- C3: once pressed = true, a left-button release clears `pressed` and
is consumed, for every widget geometry and regardless of the hovered
flag; the release path leaves `hovered` (and the geometry) untouched. -/
theorem release_clears_pressed_regardless_of_hover (b : Button) (hv : Bool)
    (h : b.pressed = true) :
    (Button.consume_event { b with hovered := hv }
        (WindowEvent.MouseInput ElementState.Released MouseButton.Left)).consumed = true
      ∧ (Button.consume_event { b with hovered := hv }
        (WindowEvent.MouseInput ElementState.Released MouseButton.Left)).button.pressed = false
      ∧ (Button.consume_event { b with hovered := hv }
        (WindowEvent.MouseInput ElementState.Released MouseButton.Left)).button.hovered = hv
      ∧ (Button.consume_event { b with hovered := hv }
        (WindowEvent.MouseInput ElementState.Released MouseButton.Left)).button.position
          = b.position
      ∧ (Button.consume_event { b with hovered := hv }
        (WindowEvent.MouseInput ElementState.Released MouseButton.Left)).button.size
          = b.size
      ∧ (Button.consume_event { b with hovered := hv }
        (WindowEvent.MouseInput ElementState.Released MouseButton.Left)).fired
          = b.on_press.toList := by
  refine ⟨?_, ?_, ?_, ?_, ?_, ?_⟩ <;> simp [Button.consume_event, h]

/-- C3 witness: the sample widget, pressed with the cursor no longer
hovering, still has `pressed` cleared by a release, which is consumed. -/
theorem release_clears_pressed_regardless_of_hover_witness :
    (Button.consume_event { sampleButton with pressed := true, hovered := false }
        (WindowEvent.MouseInput ElementState.Released MouseButton.Left)).consumed = true
      ∧ (Button.consume_event { sampleButton with pressed := true, hovered := false }
        (WindowEvent.MouseInput ElementState.Released MouseButton.Left)).button.pressed
          = false := by
  have h := release_clears_pressed_regardless_of_hover
    { sampleButton with pressed := true } false rfl
  exact ⟨h.1, h.2.1⟩

/-- C8: `set_position_offset` adds the offset to the current position
target (not to the current interpolated value, which it leaves alone),
`set_size_offset` does the same for the size, and two successive offset
calls land on the same target as a single call with the summed offset. -/
theorem offset_setters_compose_on_targets (b : Button) (a c : Vec2) :
    (b.set_position_offset a).position.target = b.position.target + a
      ∧ (b.set_position_offset a).position.current = b.position.current
      ∧ ((b.set_position_offset a).set_position_offset c).position.target
        = (b.set_position_offset (a + c)).position.target
      ∧ (b.set_size_offset a).size.target = b.size.target + a
      ∧ (b.set_size_offset a).size.current = b.size.current
      ∧ ((b.set_size_offset a).set_size_offset c).size.target
        = (b.set_size_offset (a + c)).size.target := by
  refine ⟨rfl, rfl, ?_, rfl, rfl, ?_⟩ <;>
    simp [Button.set_position_offset, Button.set_position,
      Button.set_size_offset, Button.set_size, Animated.set_target, add_assoc]

/-- C10: `set_z_index` forwards the new z-index to the sprite only; the
widget's own `z_index` field and all other widget state are unchanged, so
a freshly constructed widget still stores the descriptor's z-index after
`set_z_index`, while the sprite carries the new one. -/
theorem set_z_index_forwards_to_sprite_only (b : Button) (d : ButtonDescriptor) (z : ℚ) :
    (b.set_z_index z).sprite.z_index = z
      ∧ (b.set_z_index z).z_index = b.z_index
      ∧ (b.set_z_index z).position = b.position
      ∧ (b.set_z_index z).size = b.size
      ∧ (b.set_z_index z).hovered = b.hovered
      ∧ (b.set_z_index z).pressed = b.pressed
      ∧ (b.set_z_index z).overlay_alpha = b.overlay_alpha
      ∧ (b.set_z_index z).sprite.position = b.sprite.position
      ∧ (b.set_z_index z).sprite.size = b.sprite.size
      ∧ (b.set_z_index z).sprite.overlay_alpha = b.sprite.overlay_alpha
      ∧ ((Button.new d).set_z_index z).z_index = d.z_index := by
  refine ⟨rfl, rfl, rfl, rfl, rfl, rfl, rfl, rfl, rfl, rfl, rfl⟩

/-- C4: a left press while not hovered leaves the widget unchanged and is
not consumed; moreover, for every state and event, if `consume_event`
leaves `pressed` true then either it already was true or the event was a
left press that arrived while `hovered` was true — so along any event
sequence from the initial state, `pressed` can only have become true via
a press received while hovered. -/
theorem press_requires_hover (b c : Button) (e : WindowEvent) (h : b.hovered = false) :
    b.consume_event (WindowEvent.MouseInput ElementState.Pressed MouseButton.Left)
        = { button := b, consumed := false, fired := [] }
      ∧ ((c.consume_event e).button.pressed = true →
          c.pressed = true
            ∨ (c.hovered = true
                ∧ e = WindowEvent.MouseInput ElementState.Pressed MouseButton.Left)) := by
  constructor
  · cases hb : b.pressed <;> simp [Button.consume_event, h, hb]
  · intro hp
    cases e with
    | CursorMoved p =>
      refine Or.inl ?_
      simp only [Button.consume_event] at hp
      split_ifs at hp <;> simpa using hp
    | MouseInput s btn =>
      simp only [Button.consume_event] at hp
      split_ifs at hp with h1 h2 h3 h4 <;> simp_all
    | OtherEvent =>
      exact Or.inl (by simpa [Button.consume_event] using hp)

/-- C4 witness: a press at the non-hovered sample widget is ignored
whole, and the press that does set `pressed` (on the hovered variant)
satisfies the hovered-press disjunct. -/
theorem press_requires_hover_witness :
    Button.consume_event sampleButton
        (WindowEvent.MouseInput ElementState.Pressed MouseButton.Left)
        = { button := sampleButton, consumed := false, fired := [] }
      ∧ (({ sampleButton with hovered := true } : Button).pressed = true
          ∨ (({ sampleButton with hovered := true } : Button).hovered = true
              ∧ (WindowEvent.MouseInput ElementState.Pressed MouseButton.Left)
                = WindowEvent.MouseInput ElementState.Pressed MouseButton.Left)) := by
  have h := press_requires_hover sampleButton { sampleButton with hovered := true }
    (WindowEvent.MouseInput ElementState.Pressed MouseButton.Left) rfl
  refine ⟨h.1, h.2 ?_⟩
  rw [consume_event_press_begin _ rfl rfl]

/-- C6: from a non-hovered state, a cursor-inside move is consumed and
sets `hovered`; delivering the identical move again leaves the widget
unchanged and is not consumed; and a cursor-outside move while not
hovered is not consumed and changes nothing (so repeating it is also not
consumed). -/
theorem hover_transition_idempotent (b : Button) (p q : Vec2)
    (h : b.hovered = false) (hin : b.cursor_on_button p) (hout : ¬ b.cursor_on_button q) :
    (b.consume_event (WindowEvent.CursorMoved p)).consumed = true
      ∧ (b.consume_event (WindowEvent.CursorMoved p)).button.hovered = true
      ∧ Button.consume_event (b.consume_event (WindowEvent.CursorMoved p)).button
          (WindowEvent.CursorMoved p)
        = { button := (b.consume_event (WindowEvent.CursorMoved p)).button
            consumed := false
            fired := [] }
      ∧ b.consume_event (WindowEvent.CursorMoved q)
        = { button := b, consumed := false, fired := [] } := by
  rw [consume_event_moved_enter b p h hin,
    consume_event_moved_outside_unhovered b q h hout]
  exact ⟨rfl, rfl, consume_event_moved_inside_hovered _ p rfl hin, rfl⟩

/-- C6 witness: moving to (50, 25) over the sample widget is consumed
once and not a second time, and the outside move to (200, 200) is never
consumed. -/
theorem hover_transition_idempotent_witness :
    (Button.consume_event sampleButton (WindowEvent.CursorMoved (50, 25))).consumed = true
      ∧ Button.consume_event
            (Button.consume_event sampleButton (WindowEvent.CursorMoved (50, 25))).button
            (WindowEvent.CursorMoved (50, 25))
          = { button :=
                (Button.consume_event sampleButton (WindowEvent.CursorMoved (50, 25))).button
              consumed := false
              fired := [] }
      ∧ Button.consume_event sampleButton (WindowEvent.CursorMoved (200, 200))
          = { button := sampleButton, consumed := false, fired := [] } := by
  have h := hover_transition_idempotent sampleButton (50, 25) (200, 200) rfl
    (by norm_num [Button.cursor_on_button, sampleButton, Button.new, Animated.new])
    (by norm_num [Button.cursor_on_button, sampleButton, Button.new, Animated.new])
  exact ⟨h.1, h.2.2.1, h.2.2.2⟩

/-- C7: each hover-enter and press transition adds +1/10 to the current
overlay alpha target and each hover-exit and release transition adds
-1/10, as deltas to whatever the target currently is; entering hover and
then immediately pressing yields initial + 2/10, with no clamping to
[0, 1]. -/
theorem overlay_target_deltas (b c d : Button) (p q : Vec2)
    (hb1 : b.hovered = false) (hb2 : b.pressed = false) (hin : b.cursor_on_button p)
    (hc1 : c.hovered = true) (hc2 : c.pressed = false) (hout : ¬ c.cursor_on_button q)
    (hd : d.pressed = true) :
    (b.consume_event (WindowEvent.CursorMoved p)).button.overlay_alpha.target
        = b.overlay_alpha.target + 1/10
      ∧ (c.consume_event
            (WindowEvent.MouseInput ElementState.Pressed MouseButton.Left)).button.overlay_alpha.target
        = c.overlay_alpha.target + 1/10
      ∧ (c.consume_event (WindowEvent.CursorMoved q)).button.overlay_alpha.target
        = c.overlay_alpha.target - 1/10
      ∧ (d.consume_event
            (WindowEvent.MouseInput ElementState.Released MouseButton.Left)).button.overlay_alpha.target
        = d.overlay_alpha.target - 1/10
      ∧ (Button.consume_event (b.consume_event (WindowEvent.CursorMoved p)).button
            (WindowEvent.MouseInput ElementState.Pressed MouseButton.Left)).button.overlay_alpha.target
        = b.overlay_alpha.target + 2/10 := by
  refine ⟨?_, ?_, ?_, ?_, ?_⟩
  · rw [consume_event_moved_enter b p hb1 hin]
    rfl
  · rw [consume_event_press_begin c hc2 hc1]
    rfl
  · rw [consume_event_moved_exit c q hc1 hout]
    rfl
  · rw [consume_event_press_end d hd]
    rfl
  · rw [consume_event_moved_enter b p hb1 hin]
    show (Button.consume_event
        { b with
          hovered := true
          overlay_alpha := b.overlay_alpha.set_target (b.overlay_alpha.target + 1/10) }
        (WindowEvent.MouseInput ElementState.Pressed MouseButton.Left)).button.overlay_alpha.target
      = b.overlay_alpha.target + 2/10
    rw [consume_event_press_begin
      { b with
        hovered := true
        overlay_alpha := b.overlay_alpha.set_target (b.overlay_alpha.target + 1/10) }
      hb2 rfl]
    show b.overlay_alpha.target + 1/10 + 1/10 = b.overlay_alpha.target + 2/10
    ring

/-- C7 witness: with the sample widget's overlay target preloaded to
19/20, hover-enter followed by press drives the target to 23/20, above 1,
so no clamping is applied. -/
theorem overlay_target_deltas_witness :
    (Button.consume_event
        (Button.consume_event
          { sampleButton with overlay_alpha := Animated.new (19/20) (1/10) }
          (WindowEvent.CursorMoved (50, 25))).button
        (WindowEvent.MouseInput ElementState.Pressed MouseButton.Left)).button.overlay_alpha.target
      = 23/20 := by
  have h := overlay_target_deltas
    { sampleButton with overlay_alpha := Animated.new (19/20) (1/10) }
    { sampleButton with hovered := true }
    { sampleButton with pressed := true }
    (50, 25) (200, 200) rfl rfl
    (by norm_num [Button.cursor_on_button, sampleButton, Button.new, Animated.new])
    rfl rfl
    (by norm_num [Button.cursor_on_button, sampleButton, Button.new, Animated.new])
    rfl
  have h5 := h.2.2.2.2
  have ht : ({ sampleButton with overlay_alpha := Animated.new (19/20) (1/10) } : Button).overlay_alpha.target
      = 19/20 := rfl
  rw [ht] at h5
  have hsum : (19 : ℚ)/20 + 2/10 = 23/20 := by norm_num
  rw [hsum] at h5
  exact h5

/-- C9: `Button::update` fires no callback and leaves the interaction
flags, the callback slots, the z-index and all three animation targets
unchanged; each of the three animated values is advanced exactly when its
interpolation is not complete, in which case its new current value is
pushed to the sprite, and is left alone otherwise (leaving the sprite
field alone too). -/
theorem update_frame_effect (b : Button) (dt : ℚ) :
    (b.update dt).2 = []
      ∧ (b.update dt).1.hovered = b.hovered
      ∧ (b.update dt).1.pressed = b.pressed
      ∧ (b.update dt).1.z_index = b.z_index
      ∧ (b.update dt).1.on_press = b.on_press
      ∧ (b.update dt).1.on_release = b.on_release
      ∧ (b.update dt).1.on_enter = b.on_enter
      ∧ (b.update dt).1.on_exit = b.on_exit
      ∧ (b.update dt).1.position.target = b.position.target
      ∧ (b.update dt).1.size.target = b.size.target
      ∧ (b.update dt).1.overlay_alpha.target = b.overlay_alpha.target
      ∧ (b.update dt).1.position
        = (if b.position.complete then b.position else b.position.update dt)
      ∧ (b.update dt).1.size
        = (if b.size.complete then b.size else b.size.update dt)
      ∧ (b.update dt).1.overlay_alpha
        = (if b.overlay_alpha.complete then b.overlay_alpha else b.overlay_alpha.update dt)
      ∧ (b.update dt).1.sprite.position
        = (if b.position.complete then b.sprite.position else (b.position.update dt).current)
      ∧ (b.update dt).1.sprite.size
        = (if b.size.complete then b.sprite.size else (b.size.update dt).current)
      ∧ (b.update dt).1.sprite.overlay_alpha
        = (if b.overlay_alpha.complete then b.sprite.overlay_alpha
            else (b.overlay_alpha.update dt).current)
      ∧ (b.update dt).1.sprite.z_index = b.sprite.z_index := by
  by_cases h1 : b.position.complete = true <;>
    by_cases h2 : b.size.complete = true <;>
    by_cases h3 : b.overlay_alpha.complete = true <;>
    simp [Button.update, h1, h2, h3, Animated.update_target]

end Rwui
